import Mathlib

/-!
# Verification of the NemID authentication engine model

A shallow embedding of the `@noaignite-dk/nemid` package: the canonical
parameter signer, the error catalog, the authentication-response verifier
(`verifyAuthenticate`, both the legacy CommonJS `index.js` version and the
TypeScript `src/index.ts` version), and the PID/CPR match client
(`pid-cpr-request`).

Modelling conventions:

* JS strings are modelled as Lean `String`s.  The protocol's parameter keys,
  error codes and XML fragments are ASCII, where JS UTF-16 code-unit
  comparison coincides with codepoint comparison and where
  `String.prototype.toLowerCase` coincides with ASCII lowercasing
  (`Char.toLower`).
* A JS object with string keys is modelled as an association list in key
  insertion order with distinct keys (`Params`).
* The external XML-DSig engine (`xmldsigjs`) and the network are delegated
  capabilities: they enter the model as explicit function arguments, so that
  theorems can quantify over every engine/network behaviour.
* Fallible code returns `Except`; a thrown JS `TypeError` (as opposed to a
  deliberately constructed `NemIDError`) is a distinguished error
  constructor.
-/

namespace NemID

/-- JS string values are paired into an association list in object-key
insertion order: the model of a JS object with string keys and values. -/
abbrev Params := List (String × String)

/-- `parameters[key]` for a key obtained from `Object.keys(parameters)`:
the value stored at `key` (defaulting to `""`, which is never hit when the
key is drawn from the object itself). -/
def getParam (parameters : Params) (key : String) : String :=
  (((parameters.find? (fun kv => kv.1 == key)).map Prod.snd)).getD ""

/-- Lexicographic (codepoint-wise) `≤` on character lists: `compare a b ≤ 0`
for the `compare` npm package, which orders strings with the JS `<` / `>`
operators. -/
def lexLe : List Char → List Char → Bool
  | [], _ => true
  | _ :: _, [] => false
  | a :: as, b :: bs => if a < b then true else if b < a then false else lexLe as bs

/-- `compare(a.toLowerCase(), b.toLowerCase()) ≤ 0`: the case-insensitive
key ordering used by `normalizedParameters`. -/
def keyLe (a b : String) : Bool :=
  lexLe (a.data.map Char.toLower) (b.data.map Char.toLower)

/-- `keyLe` as a decidable relation, for `List.insertionSort`. -/
def keyLeR (a b : String) : Prop := keyLe a b = true

instance : DecidableRel keyLeR := fun a b => inferInstanceAs (Decidable (keyLe a b = true))

/-- `NemID.normalizedParameters`: sort the object keys with the stable
`Array.prototype.sort` under the case-insensitive comparator, then
concatenate `key + parameters[key]` with no separator.  A stable
comparison sort is embedded as insertion sort over the corresponding `≤`. -/
def normalizedParameters (parameters : Params) : String :=
  let keys := List.insertionSort keyLeR (parameters.map Prod.fst)
  keys.foldl (fun sum key => sum ++ key ++ getParam parameters key) ""

/-- `Object.keys(parameters).map(k => k.toLowerCase())`. -/
def lowerKeys (parameters : Params) : List String :=
  (parameters.map Prod.fst).map (fun k => ⟨k.data.map Char.toLower⟩)

/-- `NemID.signParameters`: reject (nanoassert) if a reserved key is already
present case-insensitively; otherwise append `SP_CERT`, take the canonical
form, and append `PARAMS_DIGEST` and `DIGEST_SIGNATURE` computed from it.
The delegated crypto primitives (`crypto.createHash('sha256')`,
`crypto.createSign('sha256')`) and the base64 DER certificate are
parameters of the model. -/
def signParameters (sha256 : String → String) (rsaSign : String → String)
    (spCertB64 : String) (parameters : Params) : Except String Params :=
  if (lowerKeys parameters).contains "sp_cert" then .error "assertion failed"
  else if (lowerKeys parameters).contains "params_digest" then .error "assertion failed"
  else if (lowerKeys parameters).contains "digest_signature" then .error "assertion failed"
  else
    let withCert := parameters ++ [("SP_CERT", spCertB64)]
    let input := normalizedParameters withCert
    .ok (withCert ++ [("PARAMS_DIGEST", sha256 input), ("DIGEST_SIGNATURE", rsaSign input)])

end NemID

namespace NemID

/-- The bilingual user-facing message of a catalog entry. -/
structure ErrorMessages where
  en : String
  da : String
deriving DecidableEq, Repr

/-- One entry of the static vendor error catalog (`NemID.errors`). -/
structure CatalogEntry where
  code : String
  cause : String
  message : ErrorMessages
deriving DecidableEq, Repr

/-- The static vendor error catalog, verbatim from `index.js`. -/
def errors : List CatalogEntry := [
  { code := "NODE001",
    cause := "The XMLSig response could not be parsed",
    message := {
      en := "A technical error has occurred.\nPlease try again.\nContact [Service Provider] if the problem persists.",
      da := "Der er opstået en teknisk fejl.\nForsøg igen.\nKontakt [Tjenesteudbyder], hvis problemet fortsætter." } },
  { code := "APP001",
    cause := "Error while parsing the parameters by the NemID client library. Possible causes include:\n- The parameters are not structured correctly (must be valid JSON for the JS client).\n- A mandatory parameter is missing.\n- An unsupported parameter was submitted.\n- [JS Client: The ORIGIN parameter does not match the actual origin.]\n- An unsupported value was provided for an otherwise supported parameter.\n- The calculated digest does not match the value submitted in the PARAMS_DIGEST parameter.",
    message := {
      en := "A technical error has occurred.\nPlease try again.\nContact [Service Provider] if the problem persists.",
      da := "Der er opstået en teknisk fejl.\nForsøg igen.\nKontakt [Tjenesteudbyder], hvis problemet fortsætter." } },
  { code := "APP002",
    cause := "The sign text was illegal, e.g. the HTML document contained illegal tags or the PDF document did not match its hash.",
    message := {
      en := "A technical error has occurred.\nPlease try again.\nContact [Service Provider] if the problem persists.",
      da := "Der er opstået en teknisk fejl.\nForsøg igen.\nKontakt [Tjenesteudbyder], hvis problemet fortsætter." } },
  { code := "APP003",
    cause := "An unrecoverable, internal error occurred in the client. Stack traces from this kind of errors are automatically transmitted to Nets-DanID for analysis.",
    message := {
      en := "A technical error has occurred. Please contact NemID support [https://www.nemid.nu/dken/support/contact/].",
      da := "Der er opstået en teknisk fejl. Kontakt NemID support [https://www.nemid.nu/dkda/support/faa_hjaelp_til_nemid/kontakt/]." } },
  { code := "APP004",
    cause := "Returned by the client if it is unable to resume an existing user session and the\n[JS Client: ALLOW_STEPUP parameter is not set to TRUE.]\n[Others: NO_FALLBACK parameter is set]",
    message := {
      en := "A technical error has occurred.\nPlease try again.\nContact [Service Provider] if the problem persists.",
      da := "Der er opstået en teknisk fejl.\nForsøg igen.\nKontakt [Tjenesteudbyder], hvis problemet fortsætter." } },
  { code := "APP007",
    cause := "Returned by the client if a mandatory parameter is missing, if an unrecognized parameter has been received,\n    [JS Client: or if the ORIGIN parameter does not match the actual origin.]",
    message := {
      en := "A technical error has occurred.\nContact [Service Provider].",
      da := "Der er opstået en teknisk fejl.\nKontakt [Tjenesteudbyder]." } },
  { code := "APP008",
    cause := "Returned by the client if an invalid combination of parameters has been received.\n[JS Client: One example of an invalid combination would be if the client receives both CLIENTMODE=LIMITED and CREDENTIAL_UPDATE=ALIAS (since Limited mode does not support any of the administrative flows such as changing the user alias).]",
    message := {
      en := "A technical error has occurred.\nContact [Service Provider].",
      da := "Der er opstået en teknisk fejl.\nKontakt [Tjenesteudbyder]" } },
  { code := "APP009",
    cause := "Invalid HSession.",
    message := {
      en := "A technical error has occurred.\nPlease try again.\nContact [Service Provider] if the problem persists.",
      da := "Der er opstået en teknisk fejl.\nForsøg igen.\nKontakt [Tjenesteudbyder], hvis problemet fortsætter." } },
  { code := "APP010",
    cause := "The JavaScript Client could not start.",
    message := {
      en := "A technical error has occurred.\nPlease try again.",
      da := "Der er opstået en teknisk fejl.\nForsøg igen." } },
  { code := "AUTH001",
    cause := "Number of allowed pin code attempts exceeded. The pin code has been revoked. The client has informed the user of this.",
    message := {
      en := "Your NemID is blocked.\nPlease contact NemID support. [https://www.nemid.nu/dken/support/contact/]",
      da := "Dit NemID er spærret.\nKontakt NemID support [https://www.nemid.nu/dkda/support/faa_hjaelp_til_ne\nmid/kontakt/]." } },
  { code := "AUTH003",
    cause := "The user does not have an established agreement with the bank.",
    message := {
      en := "Login succeeded but you have no bank agreement.\nPlease contact your bank for mere details",
      da := "Login er gennemført korrekt, men du har ikke en bankaftale.\nKontakt din bank for at høre nærmere." } },
  { code := "AUTH004",
    cause := "The user’s OTP device is currently quarantined, due to too many failed authentication attempts. This error code is returned if the user attempts to authenticate with an OTP device that has been quarantined during a previous session.",
    message := {
      en := "Your NemID is temporarily locked and you cannot log on until the 8 hour time lock has been lifted.",
      da := "Dit NemID er midlertidigt låst i 8 timer og du kan ikke logge på før spærringen er ophævet." } },
  { code := "AUTH005",
    cause := "The user’s OTP device is locked permanently, due to too many failed password attempts. This error code is returned if the user attempts to authenticate with an OTP device that has been locked during a previous session.",
    message := {
      en := "Your NemID has been blocked.\nPlease contact NemID support [https://www.nemid.nu/dken/support/contact/]",
      da := "Dit NemID er spærret.\nKontakt NemID support [https://www.nemid.nu/dkda/support/faa_hjaelp_til_nemid/kontakt/]." } },
  { code := "AUTH006",
    cause := "The user has run out of OTP codes and does not have a pending OTP card.",
    message := {
      en := "You have used all the codes on your code card.\nYou can order a new code card on the Lost code card page [https://service.nemid.nu/dken/nemid/code_cards/lost_code\n_card/]",
      da := "Du har brugt alle nøgler på nøglekortet.\nDu kan bestille et nyt på siden Mistet nøglekort [https://service.nemid.nu/dk-da/nemid/noeglekort/mistet_noeglekort/]" } },
  { code := "AUTH007",
    cause := "The user’s OTP device password is revoked either because it was marked as compromised or because the user has made too many failed OTP attempts. This error code is returned if the user attempts to authenticate with an OTP device that has been revoked during a previous session.",
    message := {
      en := "Your NemID password is blocked due to too many failed password attempts.\nPlease contact NemID support [https://www.nemid.nu/dken/support/contact/]",
      da := "Din NemID-adgangskode er spærret på grund af for mange fejlede forsøg.\nKontakt NemID support [https://www.nemid.nu/dkda/support/faa_hjaelp_til_nemid/kontakt/]." } },
  { code := "AUTH008",
    cause := "The user’s OTP device is not activated and does not have an active pin code.",
    message := {
      en := "Your NemID is not active and you need support to issue a new activation password to activate.\nPlease call NemID support [https://www.nemid.nu/dken/support/contact/]",
      da := "Dit NemID er ikke aktivt og du skal bestille en ny midlertidig adgangskode til aktivering hos support.\nRing til NemID support [https://www.nemid.nu/dkda/support/faa_hjaelp_til_nemid/kontakt/]." } },
  { code := "AUTH009",
    cause := "The client was unable to resume the user’s established session (either because the user logged in with only one factor, the session has timed out, or the session has been tampered with), and the single-sign-on attempt failed.",
    message := {
      en := "A technical error has occurred.\nPlease try again.",
      da := "Der er opstået en teknisk fejl.\nForsøg igen." } },
  { code := "AUTH010",
    cause := "The user answered an OTP challenge that was not the latest issued. The user was probably trying to use the device in several sessions at once.",
    message := {
      en := "A technical error has occurred.\nPlease try again, and ensure that only one NemID login is running.",
      da := "Der er opstået en teknisk fejl.\nTjek at kun ét NemID login er aktivt og forsøg igen." } },
  { code := "AUTH011",
    cause := "The user authenticated using a PIN code on the mobile client.",
    message := {
      en := "NemID login on mobile does not support authentication using a temporary password.\nPlease contact NemID support to have a new temporary password issued [https://www.nemid.nu/dken/support/contact/]\nThereafter, please log on NemID at [url to Service Provider site containing client(s)]",
      da := "NemID på mobil understøtter ikke brug af midlertidig adgangskode.\nKontakt NemID support for at få en ny kode udstedt [https://www.nemid.nu/dkda/support/faa_hjaelp_til_nemid/kontakt/]\nLog derefter på med NemID på [url til Tjenesteudbyders side med klient(er)]" } },
  { code := "AUTH012",
    cause := "The user tried to answer an expired OTP challenge.",
    message := {
      en := "A technical error has occurred.\nPlease try again.",
      da := "Der er opstået en teknisk fejl.\nForsøg igen." } },
  { code := "AUTH013",
    cause := "Split 2-factor authentication is not possible",
    message := {
      en := "A technical error has occurred.\nPlease try again.",
      da := "Der er opstået en teknisk fejl.\nForsøg igen." } },
  { code := "AUTH017",
    cause := "Environment error.",
    message := {
      en := "Something in the browser environment has caused NemID to stop working. This could be because of an incompatible plugin, too restrictive privacy settings or other environment factors.\nPlease try deactivating plugins, resetting your browser settings or try using a different browser.",
      da := "En teknisk fejl i browseren gør at NemID ikke kan starte.\nForsøg at slå unødige plug-ins fra, eller prøv igen med en anden browser." } },
  { code := "AUTH018",
    cause := "Code app is revoked, i.e. the user tried to approve in a code app that was revoked. This happen is a code app is revoked (for any reason) in the time from the code app is initiated and the user approved in the app.",
    message := {
      en := "Your code app is revoked. To use it again please reactivate it.",
      da := "Din nøgleapp er spærret. For at bruge den igen skal den genaktiveres." } },
  { code := "AUTH019",
    cause := "Prevent OTP card is activated and the user has no other active alternatives.\nI.e. the bank has enabled the prevent OTP card option, but the user has no alternative to the OTP card.",
    message := {
      en := "It is not possible to login with a code card, please use a code app or code token.",
      da := "Det er ikke muligt at logge ind med nøglekort, brug anden løsning nøgleapp eller nøgleviser." } },
  { code := "AUTH020",
    cause := "Number of allowed attempts exceeded for self-contained logins, use 2factor login.",
    message := {
      en := "Unable to login with 1-factor, please try with 2-factor login",
      da := "Kunne ikke logge ind med 1-faktor, prøv med 2-faktor login." } },
  { code := "SRV001",
    cause := "The signature on the client parameters could not be verified by DanID.",
    message := {
      en := "A technical error has occurred. Please try again.",
      da := "Der er opstået en teknisk fejl. Forsøg igen." } },
  { code := "SRV002",
    cause := "The authentication request could not be parsed by DanID",
    message := {
      en := "A technical error has occurred. Please try again.",
      da := "Der er opstået en teknisk fejl. Forsøg igen." } },
  { code := "SRV003",
    cause := "The time stamp of the authentication request was not within the allowed time span.",
    message := {
      en := "A technical error has occurred. Please try again.",
      da := "Der er opstået en teknisk fejl. Forsøg igen." } },
  { code := "SRV004",
    cause := "An unrecoverable, internal error occurred in the NemID servers.",
    message := {
      en := "A technical error has occurred. Please contact NemID support.",
      da := "Der er opstået en teknisk fejl. Kontakt NemID support." } },
  { code := "SRV005",
    cause := "The service provider was not known by DanID.",
    message := {
      en := "A technical error has occurred. Please try again.",
      da := "Der er opstået en teknisk fejl. Forsøg igen." } },
  { code := "SRV006",
    cause := "The server lost the session it had established with the client. This may occur if the user leaves the client open for a prolonged stretch of time without interaction. ",
    message := {
      en := "Time limit exceeded. Please try again.",
      da := "Tidsgrænse er overskredet. Forsøg venligst igen." } },
  { code := "SRV007",
    cause := "The user is using an obsolete version of the CSP or the Mobile client",
    message := {
      en := "Please update to the most recent version.",
      da := "Opdater venligst til nyeste version." } },
  { code := "SRV008",
    cause := "The server requires that identity protection be enabled in the SAML request. ",
    message := {
      en := "A technical error has occurred.",
      da := "Der er opstået en teknisk fejl." } },
  { code := "SRV010",
    cause := "The requested client is not available to the service provider.",
    message := {
      en := "A technical error has occurred. Please try again. Contact [Service Provider] if the problem persists.",
      da := "Der er opstået en teknisk fejl. Forsøg igen. Kontakt [Tjenesteudbyder], hvis problemet fortsætter." } },
  { code := "SRV011",
    cause := "The transaction context was too long. ",
    message := {
      en := "A technical error has occurred. Contact [Service Provider].",
      da := "Der er opstået en teknisk fejl. Kontakt [Tjenesteudbyder]." } },
  { code := "CAN001",
    cause := "The user chose to cancel a flow that was started using a temporary password, e.g. an activation pin code. This error is not transmitted if the user navigates away from the page containing the client, e.g. by closing the browser window or clicking a link.",
    message := {
      en := "You have cancelled the activation of NemID after submitting the activation password. Your activation password is no longer valid, and you must request a new activation password before you can activate and use NemID.",
      da := "Du har afbrudt aktiveringen efter du har brugt den midlertidige adgangskode. Din midlertidige adgangskode er ikke længere gyldig, og du skal bestille en ny midlertidig adgangskode, før du kan aktivere og bruge NemID." } },
  { code := "CAN002",
    cause := "The user chose to cancel the operation by pressing the cancel button. This error is not transmitted if the user navigates away from the page containing the client, e.g. by closing the browser window or clicking a link.",
    message := {
      en := "You have cancelled login.",
      da := "Du har afbrudt login." } },
  { code := "CAN003",
    cause := "The client has timed out due to user inactivity, and the flow has been cancelled.",
    message := {
      en := "The connection to the application has timed out or has been interrupted by another app.",
      da := "Forbindelsen til applikationen er timet ud eller er blevet afbrudt af en anden app." } },
  { code := "CAN004",
    cause := "The bank app has called logout during a flow.",
    message := {
      en := "The session is cancelled. Please try again",
      da := "Sessionen er afbrudt. Forsøg igen." } },
  { code := "CAN005",
    cause := "No response was received from the code app. This error is not transmitted if the user navigates away from the page containing the client, e.g. by closing the browser window or clicking a link",
    message := {
      en := "You took too long to authenticate the request you had sent to your code app.",
      da := "Det tog for lang tid, før du godkendte den anmodning, du havde sendt til din nøgleapp" } },
  { code := "CAN006",
    cause := "Code app enrol flow cancelled due to max limit.",
    message := {
      en := "The maximum number of active code apps you can have at any time is ##MAXACTIVENMAS##. If you wish to activate another code app, you must first block one of your current code apps at nemid.nu or by contacting NemID Support or your bank.",
      da := "Du kan højst have ##MAXACTIVENMAS## aktive nøgleapps ad gangen. Hvis du vil aktivere en ny nøgleapp, skal du først spærre en af dine nuværende på nemid.nu eller ved at kontakte NemID support eller din bank." } },
  { code := "CAN007",
    cause := "The user rejected the transaction in the code app.",
    message := {
      en := "You rejected your code app authentication request. If this was incorrect, you can submit a new request after clicking “OK” to finish.",
      da := "Du har afvist din anmodning om godkendelse i din nøgleapp. Hvis det var en fejl, kan du sende en ny anmodning, når du har afsluttet ved at klikke på ”Ok”." } },
  { code := "CAN008",
    cause := "The transaction has been cancelled due to overwrite of the code app notification.",
    message := {
      en := "You sent a new authentication request to your code app overwriting an existing one.",
      da := "Du har sendt en ny anmodning til godkendelse i din nøgleapp, som overskriver en eksisterende." } },
  { code := "OCES001",
    cause := "The user has opted out of OCES, but is trying to log in at a service provider that requires it.",
    message := {
      en := "You only have NemID for online banking. If you wish to use NemID for other public or private services, you must affiliate a public digital signature to your NemID.",
      da := "Du har kun NemID til netbank. Ønsker du at bruge NemID til andre hjemmesider, skal du tilknytte en offentlig digital signatur til dit NemID. " } },
  { code := "OCES002",
    cause := "The user was not OCES-qualified, but is trying to log in at a service provider that requires it.",
    message := {
      en := "If you wish to use NemID for other services than online banking, you have to affiliate public digital signature to your NemID.",
      da := "Ønsker du at bruge NemID til andet end netbank, skal du først tilknytte en offentlig digital signatur." } },
  { code := "OCES003",
    cause := "The OTP device used to log in does not have OCES, but another OTP device belonging to the user does.",
    message := {
      en := " You have attempted to log on using a NemID with no public digital signature\n      If you previously have logged on to our service using your NemID, the error can be due to having more than one NemID and having used a different NemID than normally.",
      da := "Der er ikke tilknyttet en offentlig digital signatur til det NemID du har forsøgt at logge på med.\n      Hvis du tidligere har logget ind hos os med NemID, kan fejlen skyldes, at du har flere NemID, og har brugt et andet end normalt." } },
  { code := "OCES004",
    cause := "The user is not OCES-qualified due to not having a CPR-number, being younger than 15 years of age or having the identity type bank employee.",
    message := {
      en := "You can only use this NemID for your online banking service.",
      da := "Du kan kun bruge dette NemID til netbank." } },
  { code := "OCES005",
    cause := "Returned in situations where a new certificate must be issued to complete the operation, but a technical error occurred while doing so.",
    message := {
      en := "Issuing your public digital signature failed. Please try again.\n      If the problem persists contact NemID support ",
      da := "Udstedelsen af din offentlige\n      digitale signatur mislykkedes. Forsøg venligst igen.\n      Hvis problemet fortsætter, kontakt NemID support " } },
  { code := "OCES006",
    cause := "The user has only inaccessible or inactive OCES on all of his OTP devices or no OCES at all.",
    message := {
      en := "You currently don’t have an active public digital signature (OCES certificate) affiliated with your NemID.\n      To get this, start the regular NemID order flow after witch you will be asked to affiliate a public digital signature with your current NemID.",
      da := "Du har ikke en aktiv offentlig digital signatur tilknyttet NemID i øjeblikket. Ved bestilling af NemID vil du blive tilbudt at knytte en signatur til dit nuværende NemID." } }
]

/-- `NemID.errorsByCode.get code`: the catalog keyed by code.  The source
builds a `Map` by successive `set`; with the catalog codes pairwise
distinct this is first-match lookup. -/
def errorsByCode (code : String) : Option CatalogEntry :=
  errors.find? (fun e => e.code == code)

/-- Outcome of handing the decoded response string to the external XML-DSig
engine (`XmlDSigJs.Parse`, locating the `Signature` element in the
`http://www.w3.org/2000/09/xmldsig#` namespace, and `SignedXml.LoadXml`). -/
inductive XmlOutcome
  /-- parsing or signature loading threw; `detail` is the stringified
  exception. -/
  | parseError (detail : String)
  /-- the document parsed and the signature loaded; `verify` is the result
  of the asynchronous `signedXml.Verify()` (`.error` when the verifier
  itself rejects); `subjects` are the `Subject` distinguished-name strings
  of all certificates embedded in the `X509Data` elements. -/
  | parsed (verify : Except String Bool) (subjects : List String)

/-- The observable data of a thrown `NemIDError`.  `index.js` defines
`{code, userMessage}` with the catalog cause as the `Error` message.
Modelled from the spec: the TypeScript error module (`src/error.ts`, not in
this snapshot) exposes the same catalog entries as `{code, cause,
userMessage}` per the data model section. -/
structure NemIDErrorData where
  code : String
  cause : String
  userMessage : ErrorMessages
deriving DecidableEq, Repr

/-- How `verifyAuthenticate` can fail. -/
inductive VerifyFailure
  /-- a deliberately constructed `NemIDError`. -/
  | nemIDError (e : NemIDErrorData)
  /-- any other JS exception, propagated unwrapped: the `TypeError` caused
  by the `errorByCode` slip in `index.js`, or an unexpected verifier
  fault. -/
  | jsException (detail : String)
deriving DecidableEq, Repr

/-- A successful `verifyAuthenticate` outcome: `false`, or the user-info
object parsed from a certificate subject. -/
inductive VerifyOutcome
  | reject
  | user (info : List (String × Option String))
deriving DecidableEq, Repr

/-- `remainder.dropSep sep l`: drop `sep` from the front of `l` if it is
literally there (`none` otherwise). -/
def dropSep : List Char → List Char → Option (List Char)
  | [], l => some l
  | _ :: _, [] => none
  | a :: as, b :: bs => if a = b then dropSep as bs else none

/-- `c` prepended onto the first piece of a split. -/
def consHead (c : Char) : List (List Char) → List (List Char)
  | [] => [[c]]
  | h :: t => (c :: h) :: t

/-- Fuel-driven worker for `jsSplit` (the fuel `l.length + 1` is always
sufficient because each step consumes at least one character). -/
def splitGo (sep : List Char) : Nat → List Char → List (List Char)
  | 0, l => [l]
  | _ + 1, [] => [[]]
  | fuel + 1, c :: rest =>
    match dropSep sep (c :: rest) with
    | some rem => [] :: splitGo sep fuel rem
    | none => consHead c (splitGo sep fuel rest)

/-- JS `s.split(sep)` for a non-empty literal separator. -/
def jsSplit (sep : String) (s : String) : List String :=
  (splitGo sep.data (s.data.length + 1) s.data).map (fun l => ⟨l⟩)

/-- One `key=value` fragment of a subject distinguished name:
`var [k, v] = kv.split('=')`, remapping the OID `2.5.4.5` to the
identifier name `serialNumber`.  `v` is `undefined` (`none`) when the
fragment contains no `=`. -/
def parseAttr (kv : String) : String × Option String :=
  let parts := jsSplit "=" kv
  let k := parts.headD ""
  let k := if k == "2.5.4.5" then "serialNumber" else k
  (k, parts[1]?)

/-- A certificate `Subject` string reduced to a JS object: split on `", "`,
assign each parsed attribute.  Later assignments shadow earlier ones, so
the object is modelled by prepending and first-match lookup. -/
def parseSubject (subject : String) : List (String × Option String) :=
  (jsSplit ", " subject).foldl (fun o kv => parseAttr kv :: o) []

/-- `c.serialNumber != null`: the subject object has a `serialNumber`
attribute assigned a proper (non-`undefined`) value. -/
def hasSerialNumber (o : List (String × Option String)) : Bool :=
  match (o.find? (fun kv => kv.1 == "serialNumber")).map Prod.snd with
  | some (some _) => true
  | _ => false

/-- The identity-extraction step shared verbatim by both implementations:
map every certificate subject through the attribute parser and return the
first one whose `serialNumber` is present, or `false` when there is none. -/
def extractUser (subjects : List String) : VerifyOutcome :=
  match (subjects.map parseSubject).find? (fun c => hasSerialNumber c) with
  | none => .reject
  | some user => .user user

/-- `NemID.verifyAuthenticate` of the TypeScript implementation
(`src/index.ts`), from the point where the base64 response has been decoded
to `responseData` (the claims quantify over the decoded string, so the
`Buffer.from(nemIdResponse, 'base64').toString()` step is the boundary of
the model). -/
def verifyAuthenticate (engine : String → XmlOutcome) (responseData : String) :
    Except VerifyFailure VerifyOutcome :=
  match errorsByCode responseData with
  | some error => .error (.nemIDError ⟨error.code, error.cause, error.message⟩)
  | none =>
    -- An RSA signature is well beyond 32 bytes
    if responseData.length < 32 then
      let e := (errorsByCode "NODE001").getD ⟨"", "", "", ""⟩
      .error (.nemIDError ⟨e.code, e.cause ++ ". Input: " ++ responseData, e.message⟩)
    else
      match engine responseData with
      | .parseError detail =>
        let e := (errorsByCode "NODE001").getD ⟨"", "", "", ""⟩
        .error (.nemIDError ⟨e.code, e.cause ++ ". Exception: " ++ detail, e.message⟩)
      | .parsed verify subjects =>
        match verify with
        | .error ex => .error (.jsException ex)
        | .ok isValid => if isValid = false then .ok .reject else .ok (extractUser subjects)

/-- `NemID.prototype.verifyAuthenticate` of the legacy CommonJS
implementation (`index.js`).  It differs from the TypeScript version in the
two `NODE001` branches: there it reads `NemID.errorByCode` — the defined
map is named `errorsByCode` — so `.get` is invoked on `undefined` and a
`TypeError` is thrown instead of the intended `NemIDError`. -/
def verifyAuthenticateJs (engine : String → XmlOutcome) (responseData : String) :
    Except VerifyFailure VerifyOutcome :=
  match errorsByCode responseData with
  | some error => .error (.nemIDError ⟨error.code, error.cause, error.message⟩)
  | none =>
    if responseData.length < 32 then
      .error (.jsException "TypeError: Cannot read properties of undefined (reading get)")
    else
      match engine responseData with
      | .parseError _ =>
        .error (.jsException "TypeError: Cannot read properties of undefined (reading get)")
      | .parsed verify subjects =>
        match verify with
        | .error ex => .error (.jsException ex)
        | .ok isValid => if isValid = false then .ok .reject else .ok (extractUser subjects)

end NemID

namespace PIDCPRRequest

/-- `pid.replace(/^PID:/i, '')`: drop one leading, case-insensitively
matched `PID:` prefix (the regex is anchored, so at most one occurrence and
only at the very front). -/
def stripPid (pid : String) : String :=
  if (pid.data.take 4).map Char.toLower = "pid:".data then ⟨pid.data.drop 4⟩ else pid

/-- `PIDCPRRequest._body`: the fixed request XML envelope with the four
arguments interpolated verbatim by the template literal. -/
def _body (rid spid pid cpr : String) : String :=
  "<?xml version=\"1.0\" encoding=\"iso-8859-1\"?><method name=\"pidCprRequest\" version=\"1.0\"><request id=\""
    ++ rid ++ "\"><serviceId>" ++ spid ++ "</serviceId><pid>" ++ pid ++ "</pid><cpr>"
    ++ cpr ++ "</cpr></request></method>"

/-- The observable data of the single `https.request` issued by `match`. -/
structure HttpRequest where
  method : String
  hostname : String
  path : String
  contentType : String
  body : String
deriving DecidableEq, Repr

/-- The first child of a correlated response element, as far as `match`
inspects it: its attributes. -/
structure XmlChild where
  attrs : List (String × String)
deriving DecidableEq, Repr

/-- A response element as far as `match` inspects it. -/
structure XmlElem where
  firstChild : Option XmlChild
deriving DecidableEq, Repr

/-- The response document produced by `xml.Parse`, as far as `match`
inspects it: the `id → element` association consulted by
`doc.getElementById`. -/
structure XmlDoc where
  byId : List (String × XmlElem)
deriving DecidableEq, Repr

/-- `doc.getElementById(rid)`. -/
def getElementById (doc : XmlDoc) (rid : String) : Option XmlElem :=
  (doc.byId.find? (fun kv => kv.1 == rid)).map Prod.snd

/-- `child.getAttribute(name)` (`null` when the attribute is absent). -/
def getAttribute (c : XmlChild) (name : String) : Option String :=
  (c.attrs.find? (fun kv => kv.1 == name)).map Prod.snd

/-- How `match` can fail. -/
inductive MatchFailure
  /-- a nanoassert precondition violation, thrown synchronously before any
  request is issued. -/
  | precondition (msg : String)
  /-- a transport-level failure: non-200 status, over-limit body, or a
  response without the correlated element. -/
  | transport (msg : String)
  /-- a JS `TypeError` (correlated element with no first child). -/
  | jsException (msg : String)
deriving DecidableEq, Repr

/-- The response-processing callback of `match`: reject non-200 statuses,
buffer the body through `secure-concat` with a 4096-byte limit, parse the
XML, locate the element whose id equals the request id, and read the
`statusCode` attribute of its first child — `"0"` means match. -/
def handleResponse (parseXml : String → XmlDoc) (rid : String)
    (status : Nat) (body : String) : Except MatchFailure Bool :=
  if status ≠ 200 then .error (.transport "Unable to access PID/CPR service")
  else if body.length > 4096 then .error (.transport "secure-concat limit exceeded")
  else
    match getElementById (parseXml body) rid with
    | none => .error (.transport "Invalid response from PID/CPR service")
    | some result =>
      match result.firstChild with
      | none => .error (.jsException "TypeError: Cannot read properties of null (reading getAttribute)")
      | some child => .ok (getAttribute child "statusCode" == some "0")

/-- `PIDCPRRequest.prototype.match` (named `matchModel` because `match` is a
Lean keyword): validate the preconditions, strip the `PID:` prefix, build
the request envelope around the random request id `rid`, issue the single
POST, and process the response.  The random id, the XML parser and the
remote service (`respond`, mapping the request to status and body) are
parameters of the model; the second component of the result is the list of
requests actually issued, so that "no network call" is observable. -/
def matchModel (spid host : String) (parseXml : String → XmlDoc) (rid : String)
    (respond : HttpRequest → Nat × String) (pid cpr : String) :
    Except MatchFailure Bool × List HttpRequest :=
  if cpr.length = 10 then
    let pid := stripPid pid
    let body := _body rid spid pid cpr
    let req : HttpRequest :=
      ⟨"POST", host, "/pid_serviceprovider_server/pidxml/",
        "application/x-www-form-urlencoded", "PID_REQUEST=" ++ body⟩
    let res := respond req
    (handleResponse parseXml rid res.1 res.2, [req])
  else
    (.error (.precondition "cpr must be 10 digits"), [])

/-- Modelled from the spec: "requires `cpr` to be exactly 10 digits" — a
string of exactly ten decimal digit characters.  This is the spec-side
notion the precondition claim is compared against; the source only checks
`cpr.length === 10`. -/
def isTenDigits (cpr : String) : Bool :=
  cpr.length == 10 && cpr.data.all Char.isDigit

end PIDCPRRequest

namespace NemID

theorem lexLe_total : ∀ (a b : List Char), lexLe a b = true ∨ lexLe b a = true
  | [], _ => Or.inl rfl
  | _ :: _, [] => Or.inr rfl
  | a :: as, b :: bs => by
    rcases lt_trichotomy a b with h | h | h
    · exact Or.inl (by simp [lexLe, h])
    · subst h
      rcases lexLe_total as bs with ih | ih
      · exact Or.inl (by simp [lexLe, lt_irrefl, ih])
      · exact Or.inr (by simp [lexLe, lt_irrefl, ih])
    · exact Or.inr (by simp [lexLe, h])

theorem lexLe_trans : ∀ (a b c : List Char),
    lexLe a b = true → lexLe b c = true → lexLe a c = true
  | [], _, _, _, _ => rfl
  | _ :: _, [], _, hab, _ => by simp [lexLe] at hab
  | _ :: _, _ :: _, [], _, hbc => by simp [lexLe] at hbc
  | a :: as, b :: bs, c :: cs, hab, hbc => by
    rcases lt_trichotomy a b with h1 | h1 | h1
    · rcases lt_trichotomy b c with h2 | h2 | h2
      · simp [lexLe, lt_trans h1 h2]
      · subst h2; simp [lexLe, h1]
      · simp [lexLe, asymm h2, h2] at hbc
    · subst h1
      rcases lt_trichotomy a c with h2 | h2 | h2
      · simp [lexLe, h2]
      · subst h2
        simp only [lexLe, lt_irrefl, if_neg (lt_irrefl a), if_false] at hab hbc ⊢
        exact lexLe_trans as bs cs hab hbc
      · simp [lexLe, asymm h2, h2] at hbc
    · simp [lexLe, asymm h1, h1] at hab

theorem lexLe_antisymm : ∀ (a b : List Char),
    lexLe a b = true → lexLe b a = true → a = b
  | [], [], _, _ => rfl
  | [], _ :: _, _, hba => by simp [lexLe] at hba
  | _ :: _, [], hab, _ => by simp [lexLe] at hab
  | a :: as, b :: bs, hab, hba => by
    rcases lt_trichotomy a b with h | h | h
    · simp [lexLe, asymm h, h] at hba
    · subst h
      simp only [lexLe, lt_irrefl, if_neg (lt_irrefl a), if_false] at hab hba
      rw [lexLe_antisymm as bs hab hba]
    · simp [lexLe, asymm h, h] at hab

instance : IsTotal String keyLeR := ⟨fun _ _ => lexLe_total _ _⟩

instance : IsTrans String keyLeR := ⟨fun _ _ _ hab hbc => lexLe_trans _ _ _ hab hbc⟩

/-- Under the case-insensitive key comparator, mutually "≤" keys agree
after lowercasing. -/
theorem keyLeR_antisymm {a b : String} (h1 : keyLeR a b) (h2 : keyLeR b a) :
    a.data.map Char.toLower = b.data.map Char.toLower :=
  lexLe_antisymm _ _ h1 h2

/-- Two sorted lists that are permutations of each other are equal, as soon
as the order is antisymmetric on the members of the first list (the
comparator need not be globally antisymmetric). -/
theorem sorted_perm_eq_on {α : Type} {r : α → α → Prop} :
    ∀ {l₁ l₂ : List α},
      (∀ a ∈ l₁, ∀ b ∈ l₁, r a b → r b a → a = b) →
      l₁.Perm l₂ → l₁.Sorted r → l₂.Sorted r → l₁ = l₂
  | [], l₂, _, hp, _, _ => hp.nil_eq
  | a :: t₁, [], _, hp, _, _ => by exact absurd hp.symm.nil_eq (by simp)
  | a :: t₁, b :: t₂, anti, hp, hs₁, hs₂ => by
    have hab : a = b := by
      rcases List.mem_cons.mp (hp.subset (List.mem_cons_self a t₁)) with h | ha₂
      · exact h
      rcases List.mem_cons.mp (hp.symm.subset (List.mem_cons_self b t₂)) with h | hb₁
      · exact h.symm
      exact anti a (List.mem_cons_self a t₁) b (List.mem_cons_of_mem a hb₁)
        (List.rel_of_sorted_cons hs₁ b hb₁) (List.rel_of_sorted_cons hs₂ a ha₂)
    subst hab
    have hp' := hp.cons_inv
    have anti' : ∀ x ∈ t₁, ∀ y ∈ t₁, r x y → r y x → x = y := fun x hx y hy =>
      anti x (List.mem_cons_of_mem a hx) y (List.mem_cons_of_mem a hy)
    rw [sorted_perm_eq_on anti' hp' hs₁.of_cons hs₂.of_cons]

end NemID

namespace NemID

theorem getParam_cons_of_pos {x : String × String} {l : Params} {k : String}
    (h : (x.1 == k) = true) : getParam (x :: l) k = x.2 := by
  simp [getParam, List.find?_cons_of_pos, h]

theorem getParam_cons_of_neg {x : String × String} {l : Params} {k : String}
    (h : (x.1 == k) = false) : getParam (x :: l) k = getParam l k := by
  have hx : ¬ ((fun kv : String × String => kv.1 == k) x) = true := by simp [h]
  unfold getParam
  rw [@List.find?_cons_of_neg _ (fun kv => kv.1 == k) x l hx]

/-- Looking a key up in a JS object is insensitive to the (distinct-keyed)
object's insertion order. -/
theorem getParam_perm {p q : Params} (hp : p.Perm q) (hnd : (p.map Prod.fst).Nodup)
    (k : String) : getParam p k = getParam q k := by
  induction hp with
  | nil => rfl
  | cons x h ih =>
    rcases hx : (x.1 == k) with _ | _
    · rw [getParam_cons_of_neg hx, getParam_cons_of_neg hx]
      exact ih (List.Nodup.of_cons hnd)
    · rw [getParam_cons_of_pos hx, getParam_cons_of_pos hx]
  | swap x y l =>
    have hne : y.1 ≠ x.1 := by
      intro h
      exact (List.nodup_cons.mp hnd).1 (h ▸ List.mem_cons_self x.1 (l.map Prod.fst))
    rcases hx : (x.1 == k) with _ | _ <;> rcases hy : (y.1 == k) with _ | _
    · rw [getParam_cons_of_neg hy, getParam_cons_of_neg hx,
        getParam_cons_of_neg hx, getParam_cons_of_neg hy]
    · rw [getParam_cons_of_pos hy, getParam_cons_of_neg hx, getParam_cons_of_pos hy]
    · rw [getParam_cons_of_neg hy, getParam_cons_of_pos hx, getParam_cons_of_pos hx]
    · exact absurd (by rw [eq_of_beq hy, eq_of_beq hx]) hne
  | trans h1 h2 ih1 ih2 =>
    rw [ih1 hnd, ih2 ((h1.map Prod.fst).nodup hnd)]

theorem foldl_key_congr (f g : Params) :
    ∀ (keys : List String) (s : String), (∀ k ∈ keys, getParam f k = getParam g k) →
      keys.foldl (fun sum key => sum ++ key ++ getParam f key) s =
      keys.foldl (fun sum key => sum ++ key ++ getParam g key) s
  | [], _, _ => rfl
  | k :: ks, s, h => by
    simp only [List.foldl_cons]
    rw [h k (List.mem_cons_self k ks)]
    exact foldl_key_congr f g ks _ (fun k hk => h k (List.mem_cons_of_mem _ hk))

end NemID

open NemID

/-- C1 (amended): for parameter maps with the same key/value pairs in
different insertion orders, `normalizedParameters` produces identical
output provided no two distinct keys are equal case-insensitively; without
that proviso the stable sort breaks ties by insertion order and the claim
fails (`c1_counterexample`). -/
theorem c1_normalized_order_independent (p q : Params)
    (hperm : p.Perm q)
    (hnd : (p.map Prod.fst).Nodup)
    (hinj : ∀ a ∈ p.map Prod.fst, ∀ b ∈ p.map Prod.fst,
      a.data.map Char.toLower = b.data.map Char.toLower → a = b) :
    normalizedParameters p = normalizedParameters q := by
  have hkeys : List.insertionSort keyLeR (p.map Prod.fst) =
      List.insertionSort keyLeR (q.map Prod.fst) := by
    apply sorted_perm_eq_on
    · intro a ha b hb hab hba
      exact hinj a ((List.perm_insertionSort keyLeR _).subset ha)
        b ((List.perm_insertionSort keyLeR _).subset hb) (keyLeR_antisymm hab hba)
    · exact (List.perm_insertionSort keyLeR _).trans
        ((hperm.map Prod.fst).trans (List.perm_insertionSort keyLeR _).symm)
    · exact List.sorted_insertionSort keyLeR _
    · exact List.sorted_insertionSort keyLeR _
  unfold normalizedParameters
  rw [hkeys]
  exact foldl_key_congr p q _ "" (fun k _ => getParam_perm hperm hnd k)

/-- Witness for C1: two concrete two-key maps in swapped insertion order
canonicalize identically. -/
theorem c1_normalized_order_independent_witness :
    normalizedParameters [("clientflow", "x"), ("ORIGIN", "y")] =
      normalizedParameters [("ORIGIN", "y"), ("clientflow", "x")] :=
  c1_normalized_order_independent _ _ (by decide) (by decide) (by decide)

/-- C1 counterexample: the maps `{a: "1", A: "2"}` and `{A: "2", a: "1"}`
hold the same key/value pairs in different insertion orders, yet
canonicalize to `"a1A2"` and `"A2a1"` respectively, because the two keys
tie under the case-insensitive comparator and the stable sort keeps
insertion order. -/
theorem c1_counterexample :
    ([("a", "1"), ("A", "2")] : Params).Perm [("A", "2"), ("a", "1")] ∧
    normalizedParameters [("a", "1"), ("A", "2")] ≠
      normalizedParameters [("A", "2"), ("a", "1")] :=
  ⟨by decide, by decide⟩

namespace NemID

/-- With the keys of `p` distinct, looking up the key of a stored pair
returns its value. -/
theorem getParam_of_mem {p : Params} (hnd : (p.map Prod.fst).Nodup) :
    ∀ kv ∈ p, getParam p kv.1 = kv.2 := by
  induction p with
  | nil => simp
  | cons x t ih =>
    intro kv hkv
    rcases List.mem_cons.mp hkv with h | h
    · subst h
      rw [getParam_cons_of_pos (beq_self_eq_true kv.1)]
    · have hx : (x.1 == kv.1) = false := by
        have hmem : kv.1 ∈ t.map Prod.fst := List.mem_map_of_mem Prod.fst h
        have hni := (List.nodup_cons.mp hnd).1
        simp only [beq_eq_false_iff_ne]
        exact fun he => hni (he ▸ hmem)
      rw [getParam_cons_of_neg hx]
      exact ih (List.Nodup.of_cons hnd) kv h

/-- Appending entries after `p` does not change lookups of keys of `p`. -/
theorem getParam_append_left {p : Params} {k : String} (rest : Params)
    (hk : k ∈ p.map Prod.fst) : getParam (p ++ rest) k = getParam p k := by
  induction p with
  | nil => simp at hk
  | cons x t ih =>
    rcases hx : (x.1 == k) with _ | _
    · rw [List.cons_append, getParam_cons_of_neg hx, getParam_cons_of_neg hx]
      apply ih
      rcases List.mem_cons.mp hk with h | h
      · exact absurd h.symm (by simpa using hx)
      · exact h
    · rw [List.cons_append, getParam_cons_of_pos hx, getParam_cons_of_pos hx]

/-- Membership form of the reserved-key test. -/
theorem mem_lowerKeys_iff {parameters : Params} {s : String} :
    s ∈ lowerKeys parameters ↔
      ∃ k ∈ parameters.map Prod.fst, (⟨k.data.map Char.toLower⟩ : String) = s := by
  simp [lowerKeys, List.mem_map]

theorem signParameters_ok (sha256 rsaSign : String → String) (spCertB64 : String)
    (parameters : Params)
    (h1 : "sp_cert" ∉ lowerKeys parameters)
    (h2 : "params_digest" ∉ lowerKeys parameters)
    (h3 : "digest_signature" ∉ lowerKeys parameters) :
    signParameters sha256 rsaSign spCertB64 parameters =
      .ok ((parameters ++ [("SP_CERT", spCertB64)]) ++
        [("PARAMS_DIGEST", sha256 (normalizedParameters (parameters ++ [("SP_CERT", spCertB64)]))),
         ("DIGEST_SIGNATURE", rsaSign (normalizedParameters (parameters ++ [("SP_CERT", spCertB64)])))]) := by
  simp [signParameters, h1, h2, h3]

end NemID

open NemID

/-- C7: `signParameters` fails exactly when the caller-supplied map already
contains, compared case-insensitively, one of the reserved keys `sp_cert`,
`params_digest` or `digest_signature`.  The failure condition depends only
on the caller keys — the statement quantifies over every digest and
signature primitive and every certificate — so the rejection is decided
before any digest or signature is computed and before the map is
extended. -/
theorem c7_reserved_key_rejection (sha256 rsaSign : String → String)
    (spCertB64 : String) (parameters : Params) :
    (∃ e, signParameters sha256 rsaSign spCertB64 parameters = .error e) ↔
      ∃ k ∈ parameters.map Prod.fst,
        (⟨k.data.map Char.toLower⟩ : String) = "sp_cert" ∨
        (⟨k.data.map Char.toLower⟩ : String) = "params_digest" ∨
        (⟨k.data.map Char.toLower⟩ : String) = "digest_signature" := by
  constructor
  · rintro ⟨e, he⟩
    by_cases h1 : "sp_cert" ∈ lowerKeys parameters
    · obtain ⟨k, hk, hke⟩ := mem_lowerKeys_iff.mp h1
      exact ⟨k, hk, Or.inl hke⟩
    by_cases h2 : "params_digest" ∈ lowerKeys parameters
    · obtain ⟨k, hk, hke⟩ := mem_lowerKeys_iff.mp h2
      exact ⟨k, hk, Or.inr (Or.inl hke)⟩
    by_cases h3 : "digest_signature" ∈ lowerKeys parameters
    · obtain ⟨k, hk, hke⟩ := mem_lowerKeys_iff.mp h3
      exact ⟨k, hk, Or.inr (Or.inr hke)⟩
    rw [signParameters_ok sha256 rsaSign spCertB64 parameters h1 h2 h3] at he
    cases he
  · rintro ⟨k, hk, hke | hke | hke⟩ <;>
      refine ⟨"assertion failed", ?_⟩
    · have h1 : "sp_cert" ∈ lowerKeys parameters := mem_lowerKeys_iff.mpr ⟨k, hk, hke⟩
      simp [signParameters, h1]
    · have h2 : "params_digest" ∈ lowerKeys parameters := mem_lowerKeys_iff.mpr ⟨k, hk, hke⟩
      by_cases h1 : "sp_cert" ∈ lowerKeys parameters <;>
        simp [signParameters, h1, h2]
    · have h3 : "digest_signature" ∈ lowerKeys parameters := mem_lowerKeys_iff.mpr ⟨k, hk, hke⟩
      by_cases h1 : "sp_cert" ∈ lowerKeys parameters <;>
        by_cases h2 : "params_digest" ∈ lowerKeys parameters <;>
          simp [signParameters, h1, h2, h3]

/-- C8: for every accepted input, the returned map is the caller map with
every caller-supplied key bound to its unchanged value, extended by exactly
the three derived keys `SP_CERT`, `PARAMS_DIGEST` and `DIGEST_SIGNATURE`
(in that order); the model is a pure function, so there is no other
effect. -/
theorem c8_sign_parameters_frame (sha256 rsaSign : String → String)
    (spCertB64 : String) (parameters m : Params)
    (hok : signParameters sha256 rsaSign spCertB64 parameters = .ok m)
    (hnd : (parameters.map Prod.fst).Nodup) :
    (∀ kv ∈ parameters, getParam m kv.1 = kv.2) ∧
    m.map Prod.fst =
      parameters.map Prod.fst ++ ["SP_CERT", "PARAMS_DIGEST", "DIGEST_SIGNATURE"] := by
  by_cases h1 : "sp_cert" ∈ lowerKeys parameters
  · simp [signParameters, h1] at hok
  by_cases h2 : "params_digest" ∈ lowerKeys parameters
  · simp [signParameters, h1, h2] at hok
  by_cases h3 : "digest_signature" ∈ lowerKeys parameters
  · simp [signParameters, h1, h2, h3] at hok
  rw [signParameters_ok sha256 rsaSign spCertB64 parameters h1 h2 h3] at hok
  obtain rfl : _ = m := Except.ok.inj hok
  constructor
  · intro kv hkv
    rw [List.append_assoc, getParam_append_left _ (List.mem_map_of_mem Prod.fst hkv)]
    exact getParam_of_mem hnd kv hkv
  · simp [List.map_append]

/-- Witness for C8: a concrete accepted map, with identity crypto
primitives, is extended by exactly the three derived keys and keeps its own
binding. -/
theorem c8_sign_parameters_frame_witness :
    (∀ kv ∈ ([("ORIGIN", "https://example.org")] : Params),
      getParam [("ORIGIN", "https://example.org"), ("SP_CERT", "CERT"),
        ("PARAMS_DIGEST", "ORIGINhttps://example.orgSP_CERTCERT"),
        ("DIGEST_SIGNATURE", "ORIGINhttps://example.orgSP_CERTCERT")] kv.1 = kv.2) ∧
    ([("ORIGIN", "https://example.org"), ("SP_CERT", "CERT"),
        ("PARAMS_DIGEST", "ORIGINhttps://example.orgSP_CERTCERT"),
        ("DIGEST_SIGNATURE", "ORIGINhttps://example.orgSP_CERTCERT")] : Params).map Prod.fst =
      ([("ORIGIN", "https://example.org")] : Params).map Prod.fst ++
        ["SP_CERT", "PARAMS_DIGEST", "DIGEST_SIGNATURE"] :=
  c8_sign_parameters_frame (fun s => s) (fun s => s) "CERT"
    [("ORIGIN", "https://example.org")] _ rfl (by decide)

namespace NemID

/-- The code of a catalog hit is the looked-up string. -/
theorem errorsByCode_code {s : String} {e : CatalogEntry}
    (he : errorsByCode s = some e) : e.code = s := by
  unfold errorsByCode at he
  have h := List.find?_some he
  exact eq_of_beq h

/-- Every catalog code is shorter than the 32-byte signature minimum. -/
theorem catalog_codes_short : ∀ e ∈ errors, e.code.length < 32 := by decide

/-- A string long enough to pass the minimum-length check is never a
catalog code. -/
theorem errorsByCode_eq_none_of_long {s : String} (h : 32 ≤ s.length) :
    errorsByCode s = none := by
  cases hc : errorsByCode s with
  | none => rfl
  | some e =>
    have h1 := errorsByCode_code hc
    unfold errorsByCode at hc
    have h2 := catalog_codes_short e (List.mem_of_find?_eq_some hc)
    rw [h1] at h2
    omega

end NemID

open NemID

/-- C2 (code bug in `index.js`): on a short non-catalog payload, and on an
XML parse failure, `index.js` reads `NemID.errorByCode` — the defined map
is `NemID.errorsByCode` — so `.get` is invoked on `undefined` and a
`TypeError` propagates instead of the claimed `NODE001` `NemIDError`.  The
TypeScript implementation (`src/index.ts`) behaves exactly as the claim
states, with the catalog cause annotated with the offending input
respectively the exception detail. -/
theorem c2_index_js_error_by_code_slip :
    (∀ engine, verifyAuthenticateJs engine "tooshort" =
      .error (.jsException "TypeError: Cannot read properties of undefined (reading get)")) ∧
    (verifyAuthenticateJs (fun _ => .parseError "Error: parse failure")
        "aaaaaaaaaaaaaaaaaaaaaaaaaaaaaaaa" =
      .error (.jsException "TypeError: Cannot read properties of undefined (reading get)")) ∧
    (∀ engine, verifyAuthenticate engine "tooshort" =
      .error (.nemIDError ⟨"NODE001",
        "The XMLSig response could not be parsed. Input: tooshort",
        ⟨"A technical error has occurred.\nPlease try again.\nContact [Service Provider] if the problem persists.",
         "Der er opstået en teknisk fejl.\nForsøg igen.\nKontakt [Tjenesteudbyder], hvis problemet fortsætter."⟩⟩)) ∧
    (verifyAuthenticate (fun _ => .parseError "Error: parse failure")
        "aaaaaaaaaaaaaaaaaaaaaaaaaaaaaaaa" =
      .error (.nemIDError ⟨"NODE001",
        "The XMLSig response could not be parsed. Exception: Error: parse failure",
        ⟨"A technical error has occurred.\nPlease try again.\nContact [Service Provider] if the problem persists.",
         "Der er opstået en teknisk fejl.\nForsøg igen.\nKontakt [Tjenesteudbyder], hvis problemet fortsætter."⟩⟩)) :=
  ⟨fun _ => rfl, rfl, fun _ => rfl, rfl⟩

/-- C3: when the decoded response is exactly a catalog code, both
implementations fail with a `NemIDError` carrying that entry's code, cause
and bilingual user message; the statement holds for every XML engine, so no
parsing or signature verification is attempted. -/
theorem c3_known_error_short_circuit (engine : String → XmlOutcome)
    (responseData : String) (e : CatalogEntry)
    (he : errorsByCode responseData = some e) :
    verifyAuthenticate engine responseData =
      .error (.nemIDError ⟨e.code, e.cause, e.message⟩) ∧
    verifyAuthenticateJs engine responseData =
      .error (.nemIDError ⟨e.code, e.cause, e.message⟩) ∧
    e.code = responseData := by
  refine ⟨?_, ?_, errorsByCode_code he⟩
  · unfold verifyAuthenticate
    rw [he]
  · unfold verifyAuthenticateJs
    rw [he]

/-- Witness for C3: the decoded string `SRV004` produces the `SRV004`
catalog entry wrapped in a `NemIDError`, under an engine that would fail
any parse attempt. -/
theorem c3_known_error_short_circuit_witness :
    verifyAuthenticate (fun _ => .parseError "unreached") "SRV004" =
      .error (.nemIDError ⟨"SRV004",
        "An unrecoverable, internal error occurred in the NemID servers.",
        ⟨"A technical error has occurred. Please contact NemID support.",
         "Der er opstået en teknisk fejl. Kontakt NemID support."⟩⟩) :=
  (c3_known_error_short_circuit (fun _ => .parseError "unreached") "SRV004"
    ⟨"SRV004", "An unrecoverable, internal error occurred in the NemID servers.",
      ⟨"A technical error has occurred. Please contact NemID support.",
       "Der er opstået en teknisk fejl. Kontakt NemID support."⟩⟩ (by decide)).1

/-- C4: once the decoded response passes the minimum-length check (which
also rules out catalog codes, all shorter than 32) and the engine parses
it, both implementations agree; an invalid signature yields `false` (not an
error); a valid signature yields `false` when no parsed certificate
subject has a `serialNumber` attribute (OID `2.5.4.5` remapped to
`serialNumber`), and otherwise the user info parsed from the first subject
whose `serialNumber` is present. -/
theorem c4_verification_outcomes (engine : String → XmlOutcome)
    (responseData : String) (isValid : Bool) (subjects : List String)
    (hlen : 32 ≤ responseData.length)
    (hparse : engine responseData = .parsed (.ok isValid) subjects) :
    verifyAuthenticateJs engine responseData = verifyAuthenticate engine responseData ∧
    (isValid = false → verifyAuthenticate engine responseData = .ok .reject) ∧
    (isValid = true →
      ((∀ s ∈ subjects, hasSerialNumber (parseSubject s) = false) →
        verifyAuthenticate engine responseData = .ok .reject) ∧
      (∀ s, subjects.find? (fun t => hasSerialNumber (parseSubject t)) = some s →
        verifyAuthenticate engine responseData = .ok (.user (parseSubject s)))) := by
  have hcode := errorsByCode_eq_none_of_long hlen
  have hlt : ¬ responseData.length < 32 := by omega
  refine ⟨?_, ?_, ?_⟩
  · simp only [verifyAuthenticate, verifyAuthenticateJs, hcode, hparse, if_neg hlt]
  · intro hv
    subst hv
    simp [verifyAuthenticate, hcode, hparse, hlt]
  · intro hv
    subst hv
    constructor
    · intro hnone
      have hfind : (subjects.map parseSubject).find? (fun c => hasSerialNumber c) = none := by
        rw [List.find?_eq_none]
        intro x hx
        obtain ⟨s, hs, rfl⟩ := List.mem_map.mp hx
        simp [hnone s hs]
      simp [verifyAuthenticate, hcode, hparse, hlt, extractUser, hfind]
    · intro s hs
      have hfind : (subjects.map parseSubject).find? (fun c => hasSerialNumber c) =
          some (parseSubject s) := by
        rw [List.find?_map]
        rw [show (fun c => hasSerialNumber c) ∘ parseSubject =
          (fun t => hasSerialNumber (parseSubject t)) from rfl, hs]
        rfl
      simp [verifyAuthenticate, hcode, hparse, hlt, extractUser, hfind]

/-- Witness for C4: a valid signature over a document whose first subject
lacks `serialNumber` and whose second carries the remapped OID yields the
user info of the second subject. -/
theorem c4_verification_outcomes_witness :
    verifyAuthenticate
      (fun _ => .parsed (.ok true) ["C=DK, O=None", "C=DK, O=Org, CN=Some Name, 2.5.4.5=PID:9208-2002-2-1"])
      "aaaaaaaaaaaaaaaaaaaaaaaaaaaaaaaa" =
      .ok (.user (parseSubject "C=DK, O=Org, CN=Some Name, 2.5.4.5=PID:9208-2002-2-1")) :=
  ((c4_verification_outcomes
      (fun _ => .parsed (.ok true) ["C=DK, O=None", "C=DK, O=Org, CN=Some Name, 2.5.4.5=PID:9208-2002-2-1"])
      "aaaaaaaaaaaaaaaaaaaaaaaaaaaaaaaa" true
      ["C=DK, O=None", "C=DK, O=Org, CN=Some Name, 2.5.4.5=PID:9208-2002-2-1"]
      (by decide) rfl).2.2 rfl).2
    "C=DK, O=Org, CN=Some Name, 2.5.4.5=PID:9208-2002-2-1" (by decide)

namespace PIDCPRRequest

/-- The character data of a string concatenation. -/
theorem string_data_append (a b : String) : (a ++ b).data = a.data ++ b.data := rfl

/-- The response handler never produces a precondition failure: those can
only come from the nanoassert checks before the request is built. -/
theorem handleResponse_no_precondition (parseXml : String → XmlDoc) (rid : String)
    (status : Nat) (body : String) (msg : String) :
    handleResponse parseXml rid status body ≠ .error (.precondition msg) := by
  unfold handleResponse
  by_cases h1 : status ≠ 200
  · simp [h1]
  by_cases h2 : body.length > 4096
  · simp [h1, h2]
  cases hel : getElementById (parseXml body) rid with
  | none => simp [h1, h2, hel]
  | some el =>
    cases hfc : el.firstChild with
    | none => simp [h1, h2, hel, hfc]
    | some child => simp [h1, h2, hel, hfc]

end PIDCPRRequest

open PIDCPRRequest

/-- C5 counterexample: `"abcdefghij"` is not a string of ten digits, yet
`match` accepts it — the network request is issued and the exchange runs to
completion — because the source only checks `cpr.length === 10`. -/
theorem c5_cpr_counterexample :
    isTenDigits "abcdefghij" = false ∧
    (matchModel "spid" "host" (fun _ => ⟨[]⟩) "rid"
        (fun _ => (200, "")) "pid1" "abcdefghij").2 =
      [⟨"POST", "host", "/pid_serviceprovider_server/pidxml/",
        "application/x-www-form-urlencoded",
        "PID_REQUEST=" ++ _body "rid" "spid" "pid1" "abcdefghij"⟩] ∧
    (matchModel "spid" "host" (fun _ => ⟨[]⟩) "rid"
        (fun _ => (200, "")) "pid1" "abcdefghij").1 =
      .error (.transport "Invalid response from PID/CPR service") :=
  ⟨by decide, rfl, rfl⟩

/-- C5 (amended): `match(pid, cpr)` requires `cpr` to be a string of length
exactly 10 — the characters are not checked to be digits — validated before
any network activity: the call fails synchronously with a precondition
violation exactly when the length differs from 10, and then no request is
issued. -/
theorem c5_cpr_length_precondition (spid host : String)
    (parseXml : String → XmlDoc) (rid : String)
    (respond : HttpRequest → Nat × String) (pid cpr : String) :
    ((∃ msg, (matchModel spid host parseXml rid respond pid cpr).1 =
        .error (.precondition msg)) ↔ cpr.length ≠ 10) ∧
    (cpr.length ≠ 10 →
      (matchModel spid host parseXml rid respond pid cpr).2 = []) := by
  constructor
  · constructor
    · rintro ⟨msg, hmsg⟩ hlen
      rw [show (matchModel spid host parseXml rid respond pid cpr).1 =
          handleResponse parseXml rid
            (respond ⟨"POST", host, "/pid_serviceprovider_server/pidxml/",
              "application/x-www-form-urlencoded",
              "PID_REQUEST=" ++ _body rid spid (stripPid pid) cpr⟩).1
            (respond ⟨"POST", host, "/pid_serviceprovider_server/pidxml/",
              "application/x-www-form-urlencoded",
              "PID_REQUEST=" ++ _body rid spid (stripPid pid) cpr⟩).2 from
        by simp [matchModel, hlen]] at hmsg
      exact handleResponse_no_precondition _ _ _ _ _ hmsg
    · intro hlen
      exact ⟨"cpr must be 10 digits", by simp [matchModel, hlen]⟩
  · intro hlen
    simp [matchModel, hlen]

/-- Witness for C5: a five-character cpr fails the precondition and no
request is issued. -/
theorem c5_cpr_length_precondition_witness :
    (matchModel "spid" "host" (fun _ => ⟨[]⟩) "rid"
      (fun _ => (200, "")) "pid1" "12345").2 = [] :=
  (c5_cpr_length_precondition "spid" "host" (fun _ => ⟨[]⟩) "rid"
    (fun _ => (200, "")) "pid1" "12345").2 (by decide)

/-- C6: in the network exchange of `match`, a non-200 status fails the call
(service unavailable); on 200 with a body within the 4096-byte cap, absence
of an element whose id equals the request id fails the call; otherwise the
result is `true` exactly when the `statusCode` attribute of that element's
first child equals `"0"` and `false` for any other value (including an
absent attribute), with no retry. -/
theorem c6_match_response_protocol (parseXml : String → XmlDoc)
    (rid : String) (status : Nat) (body : String) :
    (status ≠ 200 →
      handleResponse parseXml rid status body =
        .error (.transport "Unable to access PID/CPR service")) ∧
    (status = 200 → body.length ≤ 4096 →
      (getElementById (parseXml body) rid = none →
        handleResponse parseXml rid status body =
          .error (.transport "Invalid response from PID/CPR service")) ∧
      (∀ el child, getElementById (parseXml body) rid = some el →
        el.firstChild = some child →
        handleResponse parseXml rid status body =
          .ok (getAttribute child "statusCode" == some "0") ∧
        (handleResponse parseXml rid status body = .ok true ↔
          getAttribute child "statusCode" = some "0"))) := by
  constructor
  · intro h1
    simp [handleResponse, h1]
  · intro h1 h2
    have h2' : ¬ body.length > 4096 := by omega
    constructor
    · intro hel
      simp [handleResponse, h1, h2', hel]
    · intro el child hel hfc
      have hres : handleResponse parseXml rid status body =
          .ok (getAttribute child "statusCode" == some "0") := by
        simp [handleResponse, h1, h2', hel, hfc]
      refine ⟨hres, ?_⟩
      rw [hres]
      constructor
      · intro h
        have := Except.ok.inj h
        exact eq_of_beq this
      · intro h
        rw [h]
        rfl

/-- Witness for C6: a correlated response whose first child carries
`statusCode="0"` yields `true`. -/
theorem c6_match_response_protocol_witness :
    handleResponse (fun _ => ⟨[("r1", ⟨some ⟨[("statusCode", "0")]⟩⟩)]⟩)
      "r1" 200 "<resp/>" = .ok true :=
  (((c6_match_response_protocol (fun _ => ⟨[("r1", ⟨some ⟨[("statusCode", "0")]⟩⟩)]⟩)
      "r1" 200 "<resp/>").2 rfl (by decide)).2
    ⟨some ⟨[("statusCode", "0")]⟩⟩ ⟨[("statusCode", "0")]⟩ rfl rfl).1

/-- C9: for every accepted call, the single issued request embeds
`stripPid pid` in the envelope body, and `stripPid` removes exactly one
optional leading case-insensitive `PID:` prefix: it maps `pre ++ rest` to
`rest` whenever `pre` case-folds to `pid:`, and leaves any string without
such a four-character prefix unchanged. -/
theorem c9_pid_strip_one_leading_marker (spid host : String)
    (parseXml : String → XmlDoc) (rid : String)
    (respond : HttpRequest → Nat × String) (pid cpr : String)
    (hcpr : cpr.length = 10) :
    (matchModel spid host parseXml rid respond pid cpr).2 =
      [⟨"POST", host, "/pid_serviceprovider_server/pidxml/",
        "application/x-www-form-urlencoded",
        "PID_REQUEST=" ++ _body rid spid (stripPid pid) cpr⟩] ∧
    (∀ pre rest : String, pre.data.map Char.toLower = "pid:".data →
      stripPid (pre ++ rest) = rest) ∧
    (∀ s : String, (¬ ∃ pre rest : String, s = pre ++ rest ∧
        pre.data.map Char.toLower = "pid:".data) →
      stripPid s = s) := by
  refine ⟨by simp [matchModel, hcpr], ?_, ?_⟩
  · intro pre rest hpre
    have hlen4 : pre.data.length = 4 := by
      have := congrArg List.length hpre
      simpa using this
    unfold stripPid
    rw [string_data_append, List.take_left' hlen4, hpre, if_pos rfl,
      List.drop_left' hlen4]
  · intro s hs
    unfold stripPid
    rw [if_neg]
    intro hc
    exact hs ⟨⟨s.data.take 4⟩, ⟨s.data.drop 4⟩, by
      refine ⟨?_, hc⟩
      cases s with
      | mk data =>
        show String.mk data = String.mk (data.take 4) ++ String.mk (data.drop 4)
        rw [show String.mk (data.take 4) ++ String.mk (data.drop 4) =
          String.mk (data.take 4 ++ data.drop 4) from rfl, List.take_append_drop]⟩

/-- Witness for C9: a call with a `PID:`-prefixed pid issues exactly one
request embedding the stripped pid, and the strip lemmas fire on concrete
strings. -/
theorem c9_pid_strip_one_leading_marker_witness :
    (matchModel "s" "h" (fun _ => ⟨[]⟩) "r"
      (fun _ => (200, "")) "PID:ABC123" "0101701234").2 =
      [⟨"POST", "h", "/pid_serviceprovider_server/pidxml/",
        "application/x-www-form-urlencoded",
        "PID_REQUEST=" ++ _body "r" "s" (stripPid "PID:ABC123") "0101701234"⟩] :=
  (c9_pid_strip_one_leading_marker "s" "h" (fun _ => ⟨[]⟩) "r"
    (fun _ => (200, "")) "PID:ABC123" "0101701234" (by decide)).1

/-- C10: `_body` is exactly the fixed envelope template with the four
arguments spliced in verbatim — in particular `pid` and `cpr` occur as
contiguous substrings for every argument value, so XML metacharacters such
as `<`, `>` or `&` pass through unescaped and unvalidated. -/
theorem c10_body_verbatim (rid spid pid cpr : String) :
    (_body rid spid pid cpr).data =
      ("<?xml version=\"1.0\" encoding=\"iso-8859-1\"?><method name=\"pidCprRequest\" version=\"1.0\"><request id=\"" : String).data
        ++ rid.data ++ ("\"><serviceId>" : String).data ++ spid.data
        ++ ("</serviceId><pid>" : String).data ++ pid.data
        ++ ("</pid><cpr>" : String).data ++ cpr.data
        ++ ("</cpr></request></method>" : String).data ∧
    (∃ l r : List Char, (_body rid spid pid cpr).data = l ++ pid.data ++ r) ∧
    (∃ l r : List Char, (_body rid spid pid cpr).data = l ++ cpr.data ++ r) := by
  have hmain : (_body rid spid pid cpr).data =
      ("<?xml version=\"1.0\" encoding=\"iso-8859-1\"?><method name=\"pidCprRequest\" version=\"1.0\"><request id=\"" : String).data
        ++ rid.data ++ ("\"><serviceId>" : String).data ++ spid.data
        ++ ("</serviceId><pid>" : String).data ++ pid.data
        ++ ("</pid><cpr>" : String).data ++ cpr.data
        ++ ("</cpr></request></method>" : String).data := by
    simp [_body, string_data_append, List.append_assoc]
  refine ⟨hmain, ?_, ?_⟩
  · exact ⟨("<?xml version=\"1.0\" encoding=\"iso-8859-1\"?><method name=\"pidCprRequest\" version=\"1.0\"><request id=\"" : String).data
        ++ rid.data ++ ("\"><serviceId>" : String).data ++ spid.data
        ++ ("</serviceId><pid>" : String).data,
      ("</pid><cpr>" : String).data ++ cpr.data
        ++ ("</cpr></request></method>" : String).data,
      by simp [hmain, List.append_assoc]⟩
  · exact ⟨("<?xml version=\"1.0\" encoding=\"iso-8859-1\"?><method name=\"pidCprRequest\" version=\"1.0\"><request id=\"" : String).data
        ++ rid.data ++ ("\"><serviceId>" : String).data ++ spid.data
        ++ ("</serviceId><pid>" : String).data ++ pid.data
        ++ ("</pid><cpr>" : String).data,
      ("</cpr></request></method>" : String).data,
      by simp [hmain, List.append_assoc]⟩
